import Mathlib

/-!
# Verification of the ImageUploader relay (`src/app.js`)

Shallow embedding of the Express application in `src/app.js`.  The file
contains two concatenated revisions of the application; the second
("current") revision is the one the specification describes — it alone has
the GitHub-token validation, the existence check attaching a `sha` to the
write payload, the best-effort `.catch` on `fs.unlink`, and the error reply
in the webhook `catch` block.  All definitions below are translated from the
second revision; where a claim also cites the first revision the difference
is noted in the relevant doc comment.

Modelling conventions:
* Every network call (`axios.get`/`axios.post`/`axios.put`) and every disk
  operation is a point where the environment answers: the "world" records the
  answer each call would receive.  Handlers are pure functions of the request
  and the world, returning a trace of the observable effects (HTTP response,
  chat sends, repository calls, staging writes, unlink attempts).
* JavaScript exceptions are `Except JsError`; `await` of a rejected promise
  is modelled by the error short-circuiting to the enclosing `catch`.
* `Date.now()` values are passed as explicit `Nat` parameters (one per
  occurrence in the handler).
-/

namespace ImageUploader

/-- A JavaScript runtime error as observed by the handlers: an HTTP error
carries the optional response status (absent for network-level failures,
mirroring `error.response?.status`); filesystem, type and reference errors
cover `fs` failures, property access on `undefined`, and use of an
identifier that is not in scope. -/
inductive JsError where
  | http (status : Option Nat) (msg : String)
  | fsError (msg : String)
  | typeError (msg : String)
  | referenceError (ident : String)
deriving DecidableEq, Repr

/-- The `error.message` string used when a handler reports an error. -/
def JsError.message : JsError → String
  | .http _ m => m
  | .fsError m => m
  | .typeError m => m
  | .referenceError i => i ++ " is not defined"

/-- Outcome of a single `axios` call: resolved with data, or rejected with an
error carrying an optional HTTP status. -/
inductive AxiosResult (α : Type) where
  | ok (data : α)
  | err (status : Option Nat) (msg : String)
deriving DecidableEq, Repr

/-- The process configuration read from the environment after the startup
check (`GITHUB_TOKEN`, `REPO_OWNER`, `REPO_NAME`, `TELEGRAM_TOKEN`,
`WEBHOOK_URL`). -/
structure Config where
  githubToken : String
  repoOwner : String
  repoName : String
  telegramToken : String
  webhookUrl : String
deriving DecidableEq, Repr

/-! ## Base64 (`imageBuffer.toString('base64')`) -/

/-- The standard base64 alphabet. -/
def base64Alphabet : String :=
  "ABCDEFGHIJKLMNOPQRSTUVWXYZabcdefghijklmnopqrstuvwxyz0123456789+/"

/-- The base64 character for a 6-bit value. -/
def base64Char (n : Nat) : Char :=
  base64Alphabet.toList.getD n '='

/-- Base64 encoding of a byte list, 3 bytes to 4 characters with `=`
padding, as performed by `Buffer.toString('base64')`. -/
def base64Encode : List Nat → List Char
  | [] => []
  | [a] => [base64Char (a / 4), base64Char (a % 4 * 16), '=', '=']
  | [a, b] => [base64Char (a / 4), base64Char (a % 4 * 16 + b / 16),
      base64Char (b % 16 * 4), '=']
  | a :: b :: c :: rest =>
      base64Char (a / 4) :: base64Char (a % 4 * 16 + b / 16) ::
      base64Char (b % 16 * 4 + c / 64) :: base64Char (c % 64) ::
      base64Encode rest

/-- Base64 encoding as a string. -/
def base64String (bytes : List Nat) : String :=
  String.mk (base64Encode bytes)

/-! ## Remote repository client (GitHub contents API) -/

/-- The state of the target path in the remote repository at the time of the
request: present with its current revision id (`sha`), absent (the GET
returns 404), or the server failing with some other error. -/
inductive RemoteState where
  | present (sha : String)
  | absent
  | failing (status : Option Nat) (msg : String)
deriving DecidableEq, Repr

/-- The data of an existing file returned by
`GET /repos/{owner}/{repo}/contents/{path}`. -/
structure GhFileData where
  sha : String
deriving DecidableEq, Repr

/-- Result of a GET of the target path against the remote state. -/
def ghGet : RemoteState → AxiosResult GhFileData
  | .present sha => .ok ⟨sha⟩
  | .absent => .err (some 404) "Not Found"
  | .failing s m => .err s m

/-- `checkFileExists` (second revision, lines 223-237): GET the contents URL;
success means the file exists, a 404 response means it does not, and any
other failure is re-thrown (`if (error.response?.status === 404) return
false; throw error`). -/
def checkFileExists (remote : RemoteState) : Except JsError Bool :=
  match ghGet remote with
  | .ok _ => .ok true
  | .err (some 404) _ => .ok false
  | .err s m => .error (.http s m)

/-- The payload of the `axios.put` write: `{message, content, branch}` plus
`sha` exactly when the existence check found the file
(`payload.sha = existingFile.data.sha`). -/
structure PutPayload where
  commitMessage : String
  content : String
  branch : String
  sha : Option String
deriving DecidableEq, Repr

/-- The response to a successful PUT, of which the code uses
`response.data.content.download_url`. -/
structure PutResponse where
  downloadUrl : String
deriving DecidableEq, Repr

/-- A call made to the repository API, with the URL it targets. -/
inductive RepoCall where
  | get (url : String)
  | put (url : String)
deriving DecidableEq, Repr

/-- `https://api.github.com/repos/{repoOwner}/{repoName}/contents/{uploadPath}` -/
def githubContentsUrl (repoOwner repoName uploadPath : String) : String :=
  "https://api.github.com/repos/" ++ repoOwner ++ "/" ++ repoName ++
    "/contents/" ++ uploadPath

/-- The environment answers for one `uploadImageToGitHub` call: the result of
`fs.readFile(imagePath)`, the remote state of the target path (answering
both GETs of the same URL within the call), and the PUT outcome. -/
structure GhWorld where
  readFile : Except JsError (List Nat)
  remote : RemoteState
  putResult : AxiosResult PutResponse
deriving Repr

/-- Observable trace of one `uploadImageToGitHub` call: disk reads attempted,
repository API calls made in order, the payload given to the PUT (when the
PUT was reached), and the returned URL or thrown error. -/
structure GhUploadTrace where
  fsReads : List String
  calls : List RepoCall
  putPayload : Option PutPayload
  result : Except JsError String
deriving Repr

/-- `uploadImageToGitHub` (second revision, lines 240-275): read the staged
file, base64-encode it, build `{message, content, branch}`; call
`checkFileExists`; when the file exists, GET the same URL again and attach
its `sha` to the payload; PUT the payload and return
`response.data.content.download_url`.  The surrounding try/catch logs and
re-throws, so errors propagate unchanged.  (The first revision, lines 49-70,
has no existence check and never attaches a `sha`.) -/
def uploadImageToGitHub (imagePath repoOwner repoName uploadPath : String)
    (githubToken branch commitMessage : String) (gw : GhWorld) : GhUploadTrace :=
  let url := githubContentsUrl repoOwner repoName uploadPath
  match gw.readFile with
  | .error e => ⟨[imagePath], [], none, .error e⟩
  | .ok imageBuffer =>
    let encodedImage := base64String imageBuffer
    match checkFileExists gw.remote with
    | .error e => ⟨[imagePath], [.get url], none, .error e⟩
    | .ok fileExists =>
      if fileExists then
        match ghGet gw.remote with
        | .err s m => ⟨[imagePath], [.get url, .get url], none, .error (.http s m)⟩
        | .ok existingFile =>
          let payload : PutPayload :=
            ⟨commitMessage, encodedImage, branch, some existingFile.sha⟩
          match gw.putResult with
          | .ok resp => ⟨[imagePath], [.get url, .get url, .put url],
              some payload, .ok resp.downloadUrl⟩
          | .err s m => ⟨[imagePath], [.get url, .get url, .put url],
              some payload, .error (.http s m)⟩
      else
        let payload : PutPayload := ⟨commitMessage, encodedImage, branch, none⟩
        match gw.putResult with
        | .ok resp => ⟨[imagePath], [.get url, .put url], some payload,
            .ok resp.downloadUrl⟩
        | .err s m => ⟨[imagePath], [.get url, .put url], some payload,
            .error (.http s m)⟩

/-! ## HTTP upload endpoint (`POST /upload`, second revision lines 278-291) -/

/-- `req.file` as produced by the multer disk storage: the staged path on
local disk and the client-supplied original name. -/
structure StagedFile where
  path : String
  originalname : String
deriving DecidableEq, Repr

/-- JSON body of an `/upload` response: `{imageUrl}` or `{error}`. -/
inductive ResBody where
  | imageUrl (url : String)
  | jsonError (msg : String)
deriving DecidableEq, Repr

/-- Observable outcome of one `/upload` request: HTTP status and body,
repository API calls made, disk reads, the paths `fs.unlink` was called on,
and the `console.error` log lines. -/
structure UploadOutcome where
  status : Nat
  body : ResBody
  repoCalls : List RepoCall
  fsReads : List String
  unlinkAttempts : List String
  logs : List String
deriving DecidableEq, Repr

/-- `images/{Date.now()}_{req.file.originalname}` (line 283). -/
def uploadPathFor (now : Nat) (originalname : String) : String :=
  "images/" ++ toString now ++ "_" ++ originalname

/-- Tail of the `/upload` handler once `uploadImageToGitHub` has returned or
thrown.  On success: `await fs.unlink(req.file.path).catch(log)` — the
deletion is attempted and a failure only logged — then `res.json({imageUrl})`
with status 200.  On failure the `catch` responds 500 with
`{error: error.message}`; note the staged file is NOT deleted on this path
(the unlink on line 285 is only reached when the publish succeeded). -/
def uploadRespond (t : GhUploadTrace) (stagedPath : String)
    (unlinkRes : Except JsError Unit) : UploadOutcome :=
  match t.result with
  | .ok imageUrl =>
    { status := 200
      body := .imageUrl imageUrl
      repoCalls := t.calls
      fsReads := t.fsReads
      unlinkAttempts := [stagedPath]
      logs := match unlinkRes with
        | .ok _ => []
        | .error err => ["Failed to delete temp file: " ++ err.message] }
  | .error e =>
    { status := 500
      body := .jsonError e.message
      repoCalls := t.calls
      fsReads := t.fsReads
      unlinkAttempts := []
      logs := ["Upload endpoint error: " ++ e.message] }

/-- The `POST /upload` handler (second revision, lines 278-291).  With no
attached file it responds 400 `{error: 'No image provided'}` at once, making
no repository call and touching no file; otherwise it derives
`images/{now}_{originalname}`, publishes via `uploadImageToGitHub`, and
responds through `uploadRespond`. -/
def uploadHandler (file : Option StagedFile) (now : Nat) (cfg : Config)
    (gw : GhWorld) (unlinkRes : Except JsError Unit) : UploadOutcome :=
  match file with
  | none => ⟨400, .jsonError "No image provided", [], [], [], []⟩
  | some f =>
      uploadRespond
        (uploadImageToGitHub f.path cfg.repoOwner cfg.repoName
          (uploadPathFor now f.originalname) cfg.githubToken "main"
          "Upload image via API" gw)
        f.path unlinkRes

/-- A sample configuration used in concrete evaluations. -/
def cfgEx : Config := ⟨"tok", "owner", "repo", "tgtoken", "https://example.com"⟩

/-- **C2.**  For every call to `uploadImageToGitHub` (second revision) whose
staged file reads successfully: when the target path already exists in the
remote repository with revision id `sha`, the payload sent to the write
carries that `sha` (an update, not a blind create); when the target path does
not exist, the write payload carries no revision id. -/
theorem publishShaIffExists (imagePath repoOwner repoName uploadPath : String)
    (githubToken branch commitMessage sha : String) (bytes : List Nat)
    (put : AxiosResult PutResponse) :
    (uploadImageToGitHub imagePath repoOwner repoName uploadPath githubToken
        branch commitMessage
        ⟨.ok bytes, RemoteState.present sha, put⟩).putPayload =
      some ⟨commitMessage, base64String bytes, branch, some sha⟩ ∧
    (uploadImageToGitHub imagePath repoOwner repoName uploadPath githubToken
        branch commitMessage
        ⟨.ok bytes, RemoteState.absent, put⟩).putPayload =
      some ⟨commitMessage, base64String bytes, branch, none⟩ := by
  cases put <;>
    simp [uploadImageToGitHub, checkFileExists, ghGet]

/-- **C5.**  A `POST /upload` request with no attached file is answered 400
with the JSON error body `{error: 'No image provided'}`, and no repository
call, no disk read, and no unlink happens, whatever the environment would
have answered. -/
theorem uploadNoFileRejected (now : Nat) (cfg : Config) (gw : GhWorld)
    (unlinkRes : Except JsError Unit) :
    uploadHandler none now cfg gw unlinkRes =
      ⟨400, ResBody.jsonError "No image provided", [], [], [], []⟩ := rfl

/-- **C4.**  For a `POST /upload` request whose publish step succeeds with
URL `url`, a failing staged-file deletion leaves the response unchanged —
status 200 and body `{imageUrl: url}` — and the failure is only logged. -/
theorem uploadDeletionFailureInvisible (f : StagedFile) (now : Nat)
    (cfg : Config) (gw : GhWorld) (e : JsError) (url : String)
    (h : (uploadImageToGitHub f.path cfg.repoOwner cfg.repoName
        (uploadPathFor now f.originalname) cfg.githubToken "main"
        "Upload image via API" gw).result = Except.ok url) :
    (uploadHandler (some f) now cfg gw (Except.error e)).status = 200 ∧
    (uploadHandler (some f) now cfg gw (Except.error e)).body =
      ResBody.imageUrl url ∧
    (uploadHandler (some f) now cfg gw (Except.error e)).logs =
      ["Failed to delete temp file: " ++ e.message] := by
  simp [uploadHandler, uploadRespond, h]

/-- Witness for `uploadDeletionFailureInvisible`: a concrete request whose
publish succeeds while the unlink fails. -/
theorem uploadDeletionFailureInvisible_witness :
    (uploadHandler (some ⟨"uploads/1_a.png", "a.png"⟩) 0 cfgEx
        ⟨Except.ok [0], RemoteState.absent, AxiosResult.ok ⟨"https://raw/u"⟩⟩
        (Except.error (JsError.fsError "EACCES"))).status = 200 ∧
    (uploadHandler (some ⟨"uploads/1_a.png", "a.png"⟩) 0 cfgEx
        ⟨Except.ok [0], RemoteState.absent, AxiosResult.ok ⟨"https://raw/u"⟩⟩
        (Except.error (JsError.fsError "EACCES"))).body =
      ResBody.imageUrl "https://raw/u" ∧
    (uploadHandler (some ⟨"uploads/1_a.png", "a.png"⟩) 0 cfgEx
        ⟨Except.ok [0], RemoteState.absent, AxiosResult.ok ⟨"https://raw/u"⟩⟩
        (Except.error (JsError.fsError "EACCES"))).logs =
      ["Failed to delete temp file: EACCES"] :=
  uploadDeletionFailureInvisible ⟨"uploads/1_a.png", "a.png"⟩ 0 cfgEx
    ⟨Except.ok [0], RemoteState.absent, AxiosResult.ok ⟨"https://raw/u"⟩⟩
    (JsError.fsError "EACCES") "https://raw/u" rfl

/-- **C1 counterexample.**  A concrete `POST /upload` request with a staged
file whose publish step fails: handling completes (the 500 response is sent)
yet no deletion of the staged file is ever attempted, so the staged file
survives the request — refuting the claim that the staged file is deleted on
every exit path. -/
theorem uploadFailureLeavesStagedFile :
    (uploadHandler (some ⟨"uploads/1_a.png", "a.png"⟩) 0 cfgEx
        ⟨Except.ok [0], RemoteState.absent,
          AxiosResult.err (some 401) "Bad credentials"⟩
        (Except.ok ())).status = 500 ∧
    (uploadHandler (some ⟨"uploads/1_a.png", "a.png"⟩) 0 cfgEx
        ⟨Except.ok [0], RemoteState.absent,
          AxiosResult.err (some 401) "Bad credentials"⟩
        (Except.ok ())).unlinkAttempts = [] := by
  exact ⟨rfl, rfl⟩

/-! ## Telegram webhook endpoint (second revision, lines 294-337) -/

/-- `update.message.chat`, of which only `id` is used. -/
structure Chat where
  id : Nat
deriving DecidableEq, Repr

/-- One entry of `update.message.photo`, of which only `file_id` is used. -/
structure PhotoSize where
  fileId : String
deriving DecidableEq, Repr

/-- `update.message`: the photo-size list when the update is a photo
message (JS arrays are truthy even when empty, so `some []` still enters the
photo branch), the text when present, and the originating chat. -/
structure TgMessage where
  photo : Option (List PhotoSize)
  text : Option String
  chat : Chat
deriving DecidableEq, Repr

/-- A webhook update (`req.body`). -/
structure Update where
  message : Option TgMessage
deriving DecidableEq, Repr

/-- Environment answers for one webhook delivery: `getFile` keyed by the
requested `file_id`, the byte download keyed by the full file URL, the
staging `fs.writeFile` keyed by path and bytes, the GitHub-side world for
the publish, `sendMessage` keyed by chat id and text, and `fs.unlink` keyed
by path. -/
structure TgWorld where
  getFile : String → AxiosResult String
  download : String → AxiosResult (List Nat)
  writeFile : String → List Nat → Except JsError Unit
  gh : GhWorld
  sendMessage : Nat → String → AxiosResult Unit
  unlink : String → Except JsError Unit

/-- Observable outcome of one webhook delivery.  `status = none` means the
handler's async function rejected without sending any HTTP response.
`sendAttempts` lists the `sendMessage` posts in order (chat id, text);
`getFileCalls` lists the `file_id`s resolved; `staged` the paths written to
the staging directory; `unlinkAttempts` the paths `fs.unlink` was called
on. -/
structure WebhookOutcome where
  status : Option Nat
  sendAttempts : List (Nat × String)
  getFileCalls : List String
  fsReads : List String
  staged : List String
  unlinkAttempts : List String
  repoCalls : List RepoCall
deriving DecidableEq, Repr

/-- The `catch` block of the webhook route (lines 324-336).  Its first
statement evaluates `update.message`, but `update` is declared with `const`
inside the `try` block (line 297) and is therefore not in scope in the
`catch` block, so evaluating the identifier raises a `ReferenceError`.
Consequently the error reply to the chat, the `fs.unlink(tempPath)` cleanup
and the `res.sendStatus(500)` that follow are unreachable: the handler's
async function rejects and no HTTP response is sent.  The outcome keeps
whatever effects the `try` block had already performed, records no unlink
attempt, and has `status = none`. -/
def webhookCatch (sendAttempts : List (Nat × String))
    (getFileCalls fsReads staged : List String)
    (repoCalls : List RepoCall) : WebhookOutcome :=
  ⟨none, sendAttempts, getFileCalls, fsReads, staged, [], repoCalls⟩

/-- The static help message of the `/start` branch (line 320). -/
def helpText : String := "Send an image to upload to GitHub!"

/-- The confirmation message of the photo branch (line 313). -/
def confirmText (imageUrl : String) : String :=
  "Image uploaded successfully! URL: " ++ imageUrl

/-- `temp_{Date.now()}.jpg` (line 305; the `__dirname` prefix of
`path.join` is elided, the name alone identifies the staging entry). -/
def tempPathFor (now : Nat) : String := "temp_" ++ toString now ++ ".jpg"

/-- The webhook handler (second revision, lines 294-337).  Dispatch: a
message with a photo list takes the photo path (resolve the last photo's
file, download it, stage it to `temp_{now1}.jpg`, publish it as
`images/{now2}.jpg`, send the confirmation, then best-effort unlink and
answer 200); otherwise a message whose text is exactly `/start` gets the
static help message and 200; any other update is a no-op answered 200.  A
JS exception anywhere in the `try` block transfers to `webhookCatch`, where
the out-of-scope read of `update` raises a `ReferenceError` (see there).
An empty photo list throws too: `photo[photo.length - 1]` is
`photo[-1] = undefined`, whose `.file_id` raises a `TypeError`. -/
def webhookHandler (u : Update) (cfg : Config) (now1 now2 : Nat)
    (w : TgWorld) : WebhookOutcome :=
  match u.message with
  | none => ⟨some 200, [], [], [], [], [], []⟩
  | some msg =>
    match msg.photo with
    | none =>
      if msg.text = some "/start" then
        match w.sendMessage msg.chat.id helpText with
        | .err _ _ => webhookCatch [(msg.chat.id, helpText)] [] [] [] []
        | .ok _ => ⟨some 200, [(msg.chat.id, helpText)], [], [], [], [], []⟩
      else ⟨some 200, [], [], [], [], [], []⟩
    | some photo =>
      match photo.getLast? with
      | none => webhookCatch [] [] [] [] []
      | some lastPhoto =>
        match w.getFile lastPhoto.fileId with
        | .err _ _ => webhookCatch [] [lastPhoto.fileId] [] [] []
        | .ok filePath =>
          match w.download ("https://api.telegram.org/file/bot" ++
              cfg.telegramToken ++ "/" ++ filePath) with
          | .err _ _ => webhookCatch [] [lastPhoto.fileId] [] [] []
          | .ok responseData =>
            match w.writeFile (tempPathFor now1) responseData with
            | .error _ => webhookCatch [] [lastPhoto.fileId] [] [] []
            | .ok _ =>
              let t := uploadImageToGitHub (tempPathFor now1) cfg.repoOwner
                cfg.repoName ("images/" ++ toString now2 ++ ".jpg")
                cfg.githubToken "main" "Upload image via API" w.gh
              match t.result with
              | .error _ =>
                  webhookCatch [] [lastPhoto.fileId] t.fsReads
                    [tempPathFor now1] t.calls
              | .ok imageUrl =>
                match w.sendMessage msg.chat.id (confirmText imageUrl) with
                | .err _ _ =>
                    webhookCatch [(msg.chat.id, confirmText imageUrl)]
                      [lastPhoto.fileId] t.fsReads [tempPathFor now1] t.calls
                | .ok _ =>
                    ⟨some 200, [(msg.chat.id, confirmText imageUrl)],
                      [lastPhoto.fileId], t.fsReads, [tempPathFor now1],
                      [tempPathFor now1], t.calls⟩

/-- A webhook environment in which every external call succeeds. -/
def allOkWorld : TgWorld :=
  ⟨fun _ => AxiosResult.ok "photos/file_1.jpg",
   fun _ => AxiosResult.ok [0],
   fun _ _ => Except.ok (),
   ⟨Except.ok [0], RemoteState.absent, AxiosResult.ok ⟨"https://raw/u"⟩⟩,
   fun _ _ => AxiosResult.ok (),
   fun _ => Except.ok ()⟩

/-- `allOkWorld` except that resolving the photo's file fails with a
network error. -/
def getFileFailWorld : TgWorld :=
  { allOkWorld with
    getFile := fun _ => AxiosResult.err none "getaddrinfo ENOTFOUND" }

/-- **C3 (code bug).**  A concrete webhook photo update whose `getFile`
call fails.  The claim (and the spec) promise that the error is caught, an
error message is sent best-effort to the chat, and the response is 500.
The code's `catch` block (lines 324-336) instead begins by reading
`update`, which is `const`-scoped to the `try` block (line 297) and not in
scope there, so a `ReferenceError` is raised inside the `catch`: no error
message is sent and no HTTP response at all is produced.  The evaluation
shows the full outcome: no status, no chat send, no cleanup. -/
theorem webhookErrorPathScopeBug :
    webhookHandler ⟨some ⟨some [⟨"fid"⟩], none, ⟨7⟩⟩⟩ cfgEx 0 0
      getFileFailWorld = ⟨none, [], ["fid"], [], [], [], []⟩ := rfl

/-- **C6.**  For every webhook photo update with a non-empty photo-size
list (last element `p`), the handler resolves exactly `p.fileId` — the
last, highest-resolution variant — as the file to download and publish. -/
theorem webhookSelectsLastPhoto (photos : List PhotoSize) (p : PhotoSize)
    (txt : Option String) (chat : Chat) (cfg : Config) (now1 now2 : Nat)
    (w : TgWorld) (h : photos.getLast? = some p) :
    (webhookHandler ⟨some ⟨some photos, txt, chat⟩⟩ cfg now1 now2
        w).getFileCalls = [p.fileId] := by
  simp only [webhookHandler]
  rw [h]
  cases hg : w.getFile p.fileId with
  | err s m => simp [hg, webhookCatch]
  | ok filePath =>
    cases hd : w.download ("https://api.telegram.org/file/bot" ++
        cfg.telegramToken ++ "/" ++ filePath) with
    | err s m => simp [hg, hd, webhookCatch]
    | ok responseData =>
      cases hw : w.writeFile (tempPathFor now1) responseData with
      | error e => simp [hg, hd, hw, webhookCatch]
      | ok a =>
        cases hr : (uploadImageToGitHub (tempPathFor now1) cfg.repoOwner
            cfg.repoName ("images/" ++ toString now2 ++ ".jpg")
            cfg.githubToken "main" "Upload image via API" w.gh).result with
        | error e => simp [hg, hd, hw, hr, webhookCatch]
        | ok imageUrl =>
          cases hs : w.sendMessage chat.id (confirmText imageUrl) with
          | err s m => simp [hg, hd, hw, hr, hs, webhookCatch]
          | ok d => simp [hg, hd, hw, hr, hs]

/-- Witness for `webhookSelectsLastPhoto`: with two photo sizes the second
(last) one is resolved. -/
theorem webhookSelectsLastPhoto_witness :
    (webhookHandler ⟨some ⟨some [⟨"small"⟩, ⟨"large"⟩], none, ⟨7⟩⟩⟩ cfgEx
        0 0 allOkWorld).getFileCalls = ["large"] :=
  webhookSelectsLastPhoto [⟨"small"⟩, ⟨"large"⟩] ⟨"large"⟩ none ⟨7⟩ cfgEx
    0 0 allOkWorld rfl

/-- **C9 counterexample.**  A concrete webhook update whose message text is
exactly `/start` but which also carries a photo: the dispatch on line 298
checks the photo first, so the handler runs the photo path — it stages a
file and sends the upload confirmation, not the static help message —
refuting the claim as stated for every update whose text is `/start`. -/
theorem startWithPhotoTakesPhotoPath :
    (webhookHandler ⟨some ⟨some [⟨"fid"⟩], some "/start", ⟨7⟩⟩⟩ cfgEx 0 0
        allOkWorld).staged = ["temp_0.jpg"] ∧
    (webhookHandler ⟨some ⟨some [⟨"fid"⟩], some "/start", ⟨7⟩⟩⟩ cfgEx 0 0
        allOkWorld).sendAttempts = [(7, confirmText "https://raw/u")] :=
  ⟨rfl, rfl⟩

/-- **C9 (amended).**  For every webhook update whose message carries no
photo and whose text is exactly `/start`, the handler attempts exactly one
chat send — the static help message to the originating chat — makes no
repository call, reads, writes and deletes no file, and, when the help send
succeeds, acknowledges with status 200. -/
theorem startCommandFrameEffects (chat : Chat) (txt : Option String)
    (cfg : Config) (now1 now2 : Nat) (w : TgWorld)
    (h : txt = some "/start") :
    (webhookHandler ⟨some ⟨none, txt, chat⟩⟩ cfg now1 now2 w).sendAttempts =
      [(chat.id, helpText)] ∧
    (webhookHandler ⟨some ⟨none, txt, chat⟩⟩ cfg now1 now2 w).repoCalls = [] ∧
    (webhookHandler ⟨some ⟨none, txt, chat⟩⟩ cfg now1 now2 w).fsReads = [] ∧
    (webhookHandler ⟨some ⟨none, txt, chat⟩⟩ cfg now1 now2 w).staged = [] ∧
    (webhookHandler ⟨some ⟨none, txt, chat⟩⟩ cfg now1 now2
        w).unlinkAttempts = [] ∧
    (w.sendMessage chat.id helpText = AxiosResult.ok () →
      (webhookHandler ⟨some ⟨none, txt, chat⟩⟩ cfg now1 now2 w).status =
        some 200) := by
  cases hs : w.sendMessage chat.id helpText <;>
    simp [webhookHandler, webhookCatch, h, hs]

/-- Witness for `startCommandFrameEffects`: a concrete `/start` text update
in an environment where the help send succeeds. -/
theorem startCommandFrameEffects_witness :
    (webhookHandler ⟨some ⟨none, some "/start", ⟨7⟩⟩⟩ cfgEx 0 0
        allOkWorld).sendAttempts = [(7, helpText)] ∧
    (webhookHandler ⟨some ⟨none, some "/start", ⟨7⟩⟩⟩ cfgEx 0 0
        allOkWorld).repoCalls = [] ∧
    (webhookHandler ⟨some ⟨none, some "/start", ⟨7⟩⟩⟩ cfgEx 0 0
        allOkWorld).staged = [] ∧
    (webhookHandler ⟨some ⟨none, some "/start", ⟨7⟩⟩⟩ cfgEx 0 0
        allOkWorld).status = some 200 := by
  obtain ⟨h1, h2, h3, h4, h5, h6⟩ :=
    startCommandFrameEffects ⟨7⟩ (some "/start") cfgEx 0 0 allOkWorld rfl
  exact ⟨h1, h2, h4, h6 rfl⟩

/-- **C10.**  The `/start` match is strict string equality (line 317): a
webhook update carrying a text message whose text is not exactly `/start`
and no photo takes the final no-op branch — no chat send, no file
resolution, no staging, no publish, no unlink — and is acknowledged with
status 200. -/
theorem nonStartTextNoOp (txt : String) (chat : Chat) (cfg : Config)
    (now1 now2 : Nat) (w : TgWorld) (h : txt ≠ "/start") :
    webhookHandler ⟨some ⟨none, some txt, chat⟩⟩ cfg now1 now2 w =
      ⟨some 200, [], [], [], [], [], []⟩ := by
  simp [webhookHandler, h]

/-- Witness for `nonStartTextNoOp`: the text `/start help`, which merely
begins with `/start`, is a no-op acknowledged 200. -/
theorem nonStartTextNoOp_witness :
    webhookHandler ⟨some ⟨none, some "/start help", ⟨7⟩⟩⟩ cfgEx 0 0
      allOkWorld = ⟨some 200, [], [], [], [], [], []⟩ :=
  nonStartTextNoOp "/start help" ⟨7⟩ cfgEx 0 0 allOkWorld (by decide)

/-! ## Staged-file lifetime across both ingress paths (claim C1) -/

/-- Cleanup behaviour of the `/upload` response tail: the staged file's
deletion is attempted exactly when the handler answers 200 (publish
succeeded); a 500 answer (publish failed) deletes nothing. -/
theorem uploadRespond_cleanup (t : GhUploadTrace) (stagedPath : String)
    (unlinkRes : Except JsError Unit) :
    ((uploadRespond t stagedPath unlinkRes).status = 200 →
      (uploadRespond t stagedPath unlinkRes).unlinkAttempts = [stagedPath]) ∧
    ((uploadRespond t stagedPath unlinkRes).status = 500 →
      (uploadRespond t stagedPath unlinkRes).unlinkAttempts = []) := by
  cases h : t.result <;> simp [uploadRespond, h]

/-- Cleanup behaviour of the webhook handler: when it answers 200 every
staged file has a deletion attempt, and when its handling fails (no
response is sent — the `catch` block dies on the out-of-scope `update`)
no deletion is attempted at all. -/
theorem webhookHandler_cleanup (u : Update) (cfg : Config) (now1 now2 : Nat)
    (w : TgWorld) :
    ((webhookHandler u cfg now1 now2 w).status = some 200 →
      (webhookHandler u cfg now1 now2 w).unlinkAttempts =
        (webhookHandler u cfg now1 now2 w).staged) ∧
    ((webhookHandler u cfg now1 now2 w).status = none →
      (webhookHandler u cfg now1 now2 w).unlinkAttempts = []) := by
  obtain ⟨msg⟩ := u
  cases msg with
  | none => simp [webhookHandler]
  | some m =>
    obtain ⟨photo, txt, chat⟩ := m
    cases photo with
    | none =>
      by_cases ht : txt = some "/start"
      · cases hs : w.sendMessage chat.id helpText <;>
          simp [webhookHandler, webhookCatch, ht, hs]
      · simp [webhookHandler, ht]
    | some photos =>
      cases hl : photos.getLast? with
      | none => simp [webhookHandler, hl, webhookCatch]
      | some p =>
        cases hg : w.getFile p.fileId with
        | err s m2 => simp [webhookHandler, hl, hg, webhookCatch]
        | ok filePath =>
          cases hd : w.download ("https://api.telegram.org/file/bot" ++
              cfg.telegramToken ++ "/" ++ filePath) with
          | err s m2 => simp [webhookHandler, hl, hg, hd, webhookCatch]
          | ok responseData =>
            cases hw : w.writeFile (tempPathFor now1) responseData with
            | error e => simp [webhookHandler, hl, hg, hd, hw, webhookCatch]
            | ok a =>
              cases hr : (uploadImageToGitHub (tempPathFor now1)
                  cfg.repoOwner cfg.repoName
                  ("images/" ++ toString now2 ++ ".jpg") cfg.githubToken
                  "main" "Upload image via API" w.gh).result with
              | error e =>
                  simp [webhookHandler, hl, hg, hd, hw, hr, webhookCatch]
              | ok imageUrl =>
                cases hs : w.sendMessage chat.id (confirmText imageUrl) with
                | err s m2 =>
                    simp [webhookHandler, hl, hg, hd, hw, hr, hs,
                      webhookCatch]
                | ok d =>
                    simp [webhookHandler, hl, hg, hd, hw, hr, hs]

/-- **C1 (amended).**  Staged files are deleted exactly on the success
path, not on every exit path: when the `/upload` handler answers 200 the
staged file's deletion is attempted (best-effort) before the response, but
when it answers 500 (publish failed) the staged file is not deleted; when
the webhook handler answers 200 every file it staged has a deletion
attempt, but when its handling fails no response is sent and no deletion is
attempted (the `catch` block's cleanup is unreachable behind its
out-of-scope read of `update`). -/
theorem stagingCleanupOnlyOnSuccess (f : StagedFile) (now : Nat)
    (cfg : Config) (gw : GhWorld) (unlinkRes : Except JsError Unit)
    (u : Update) (now1 now2 : Nat) (w : TgWorld) :
    ((uploadHandler (some f) now cfg gw unlinkRes).status = 200 →
      (uploadHandler (some f) now cfg gw unlinkRes).unlinkAttempts =
        [f.path]) ∧
    ((uploadHandler (some f) now cfg gw unlinkRes).status = 500 →
      (uploadHandler (some f) now cfg gw unlinkRes).unlinkAttempts = []) ∧
    ((webhookHandler u cfg now1 now2 w).status = some 200 →
      (webhookHandler u cfg now1 now2 w).unlinkAttempts =
        (webhookHandler u cfg now1 now2 w).staged) ∧
    ((webhookHandler u cfg now1 now2 w).status = none →
      (webhookHandler u cfg now1 now2 w).unlinkAttempts = []) :=
  ⟨(uploadRespond_cleanup _ f.path unlinkRes).1,
   (uploadRespond_cleanup _ f.path unlinkRes).2,
   (webhookHandler_cleanup u cfg now1 now2 w).1,
   (webhookHandler_cleanup u cfg now1 now2 w).2⟩

/-- Witness for `stagingCleanupOnlyOnSuccess`: concrete successful and
failing runs of both handlers. -/
theorem stagingCleanupOnlyOnSuccess_witness :
    (uploadHandler (some ⟨"uploads/2_b.png", "b.png"⟩) 0 cfgEx
        ⟨Except.ok [0], RemoteState.absent, AxiosResult.ok ⟨"https://raw/u"⟩⟩
        (Except.ok ())).unlinkAttempts = ["uploads/2_b.png"] ∧
    (uploadHandler (some ⟨"uploads/2_b.png", "b.png"⟩) 0 cfgEx
        ⟨Except.ok [0], RemoteState.absent,
          AxiosResult.err (some 401) "Bad credentials"⟩
        (Except.ok ())).unlinkAttempts = [] ∧
    (webhookHandler ⟨some ⟨some [⟨"fid"⟩], none, ⟨7⟩⟩⟩ cfgEx 0 0
        allOkWorld).unlinkAttempts =
      (webhookHandler ⟨some ⟨some [⟨"fid"⟩], none, ⟨7⟩⟩⟩ cfgEx 0 0
        allOkWorld).staged ∧
    (webhookHandler ⟨some ⟨some [⟨"fid"⟩], none, ⟨7⟩⟩⟩ cfgEx 0 0
        getFileFailWorld).unlinkAttempts = [] := by
  refine ⟨?_, ?_, ?_, ?_⟩
  · exact (stagingCleanupOnlyOnSuccess ⟨"uploads/2_b.png", "b.png"⟩ 0 cfgEx
      ⟨Except.ok [0], RemoteState.absent, AxiosResult.ok ⟨"https://raw/u"⟩⟩
      (Except.ok ()) ⟨none⟩ 0 0 allOkWorld).1 rfl
  · exact (stagingCleanupOnlyOnSuccess ⟨"uploads/2_b.png", "b.png"⟩ 0 cfgEx
      ⟨Except.ok [0], RemoteState.absent,
        AxiosResult.err (some 401) "Bad credentials"⟩
      (Except.ok ()) ⟨none⟩ 0 0 allOkWorld).2.1 rfl
  · exact (stagingCleanupOnlyOnSuccess ⟨"uploads/2_b.png", "b.png"⟩ 0 cfgEx
      ⟨Except.ok [0], RemoteState.absent, AxiosResult.ok ⟨"https://raw/u"⟩⟩
      (Except.ok ()) ⟨some ⟨some [⟨"fid"⟩], none, ⟨7⟩⟩⟩ 0 0
      allOkWorld).2.2.1 rfl
  · exact (stagingCleanupOnlyOnSuccess ⟨"uploads/2_b.png", "b.png"⟩ 0 cfgEx
      ⟨Except.ok [0], RemoteState.absent, AxiosResult.ok ⟨"https://raw/u"⟩⟩
      (Except.ok ()) ⟨some ⟨some [⟨"fid"⟩], none, ⟨7⟩⟩⟩ 0 0
      getFileFailWorld).2.2.2 rfl

/-! ## Startup (second revision, lines 182-188 and 363-375) -/

/-- The required environment variables (line 182). -/
def requiredEnvVars : List String :=
  ["GITHUB_TOKEN", "REPO_OWNER", "REPO_NAME", "TELEGRAM_TOKEN", "WEBHOOK_URL"]

/-- JS truthiness of `process.env[v]`: an unset variable is `undefined`
(falsy), and the empty string is falsy too. -/
def envPresent (env : String → Option String) (v : String) : Bool :=
  match env v with
  | none => false
  | some s => !(s == "")

/-- The module-top validation loop (lines 183-188): the first required
variable for which `!process.env[envVar]` holds makes the process
`process.exit(1)`. -/
def startupEnvCheck (env : String → Option String) : Option String :=
  requiredEnvVars.find? (fun v => !envPresent env v)

/-- What module evaluation does at startup: exit during the environment
check, or reach `app.listen(PORT, ...)` at the bottom of the module and
bind the port.  Every route registration sits between the two, so an exit
in the check happens before the port is bound and before any request can be
served. -/
inductive StartupResult where
  | exited (code : Nat)
  | listening (port : Nat)
deriving DecidableEq, Repr

/-- Module evaluation order: the `requiredEnvVars` loop runs first; only
when every required variable is present does control reach
`app.listen(PORT)` (line 364). -/
def startup (env : String → Option String) (port : Nat) : StartupResult :=
  match startupEnvCheck env with
  | some _ => .exited 1
  | none => .listening port

/-- **C7.**  If any one of the five required configuration values is absent
from the environment at startup, the process exits with code 1 before
binding its listening port, so no request is ever served. -/
theorem missingEnvVarExits (env : String → Option String) (port : Nat)
    (v : String) (hv : v ∈ requiredEnvVars) (h : env v = none) :
    startup env port = StartupResult.exited 1 := by
  have hsome : (startupEnvCheck env).isSome := by
    rw [startupEnvCheck, List.find?_isSome]
    exact ⟨v, hv, by simp [envPresent, h]⟩
  obtain ⟨s, hs⟩ := Option.isSome_iff_exists.mp hsome
  unfold startup
  rw [hs]

/-- Witness for `missingEnvVarExits`: an empty environment exits. -/
theorem missingEnvVarExits_witness :
    startup (fun _ => none) 3000 = StartupResult.exited 1 :=
  missingEnvVarExits (fun _ => none) 3000 "GITHUB_TOKEN" (by decide) rfl

/-- Continuing or terminating the process from inside an async startup
step. -/
inductive ProcessOutcome (α : Type) where
  | exited (code : Nat)
  | continued (a : α)
deriving DecidableEq, Repr

/-- `validateGitHubToken` (second revision, lines 205-220): GET
`https://api.github.com/user` with the configured token; on success log the
user and return `true`; on any failure log and `process.exit(1)` — the
process terminates and serves no further request. -/
def validateGitHubToken (identity : AxiosResult String) : ProcessOutcome Bool :=
  match identity with
  | .ok _ => .continued true
  | .err _ _ => .exited 1

/-- The `app.listen` callback (second revision, lines 364-375): validate
the GitHub token, then register the webhook with the messaging platform; a
registration failure hits the callback's catch, which also
`process.exit(1)`s. -/
def listenCallback (identity : AxiosResult String)
    (setWebhookRes : AxiosResult Unit) : ProcessOutcome Unit :=
  match validateGitHubToken identity with
  | .exited c => .exited c
  | .continued _ =>
    match setWebhookRes with
    | .ok _ => .continued ()
    | .err _ _ => .exited 1

/-- **C8.**  The startup identity check of the repository credential is
performed through `validateGitHubToken` in the listen callback, and when
the check fails — whatever the status or message — the process exits with
code 1 instead of continuing to serve requests; only a successful check
lets startup continue. -/
theorem invalidTokenTerminates (s : Option Nat) (m : String)
    (setWebhookRes : AxiosResult Unit) :
    listenCallback (AxiosResult.err s m) setWebhookRes =
      ProcessOutcome.exited 1 := rfl

end ImageUploader
